import Mathlib

/-!
Shallow embedding of the MCP HTTP bridge (`src/http_wrapper.py`, with the
notifications endpoint of `src/copilot_wrapper.py`): JSON values, the
Python-dict operations the wrapper relies on, the Correlator / Line Reader
state, the Protocol Adapter `handle_mcp_request`, origin validation and the
SSE session-queue layer.
-/

/-- JSON values as produced by `json.loads`; numbers are modelled as
integers (no claim touches fractional numbers). -/
inductive Json where
  | null
  | bool (b : Bool)
  | num (n : Int)
  | str (s : String)
  | arr (xs : List Json)
  | obj (fields : List (String × Json))
deriving Repr

namespace Json

mutual

/-- Python `==` on JSON values: a Boolean structural comparison, split
into three mutually structural functions so that the kernel can evaluate
it on concrete values. -/
def eqb (a : Json) (b : Json) : Bool :=
  match a, b with
  | .obj x, .obj y => eqbPairs x y
  | .arr x, .arr y => eqbElems x y
  | .str x, .str y => x == y
  | .num x, .num y => x == y
  | .bool x, .bool y => x == y
  | .null, .null => true
  | _, _ => false

/-- `eqb` lifted to the element lists of two arrays. -/
def eqbElems (a : List Json) (b : List Json) : Bool :=
  match a, b with
  | u :: us, v :: vs => eqb u v && eqbElems us vs
  | [], [] => true
  | _, _ => false

/-- `eqb` lifted to the field lists of two objects. -/
def eqbPairs (a : List (String × Json)) (b : List (String × Json)) : Bool :=
  match a, b with
  | (k1, v1) :: xs, (k2, v2) :: ys =>
      k1 == k2 && eqb v1 v2 && eqbPairs xs ys
  | [], [] => true
  | _, _ => false

end

mutual

theorem eqb_eq : ∀ (a b : Json), eqb a b = true ↔ a = b
  | .obj x, .obj y => by
      have ih := eqbPairs_eq x y
      simp [eqb, ih]
  | .arr x, .arr y => by
      have ih := eqbElems_eq x y
      simp [eqb, ih]
  | .str _, .str _ => by simp [eqb]
  | .num _, .num _ => by simp [eqb]
  | .bool _, .bool _ => by simp [eqb]
  | .null, .null => by simp [eqb]
  | .null, .bool _ => by simp [eqb]
  | .null, .num _ => by simp [eqb]
  | .null, .str _ => by simp [eqb]
  | .null, .arr _ => by simp [eqb]
  | .null, .obj _ => by simp [eqb]
  | .bool _, .null => by simp [eqb]
  | .bool _, .num _ => by simp [eqb]
  | .bool _, .str _ => by simp [eqb]
  | .bool _, .arr _ => by simp [eqb]
  | .bool _, .obj _ => by simp [eqb]
  | .num _, .null => by simp [eqb]
  | .num _, .bool _ => by simp [eqb]
  | .num _, .str _ => by simp [eqb]
  | .num _, .arr _ => by simp [eqb]
  | .num _, .obj _ => by simp [eqb]
  | .str _, .null => by simp [eqb]
  | .str _, .bool _ => by simp [eqb]
  | .str _, .num _ => by simp [eqb]
  | .str _, .arr _ => by simp [eqb]
  | .str _, .obj _ => by simp [eqb]
  | .arr _, .null => by simp [eqb]
  | .arr _, .bool _ => by simp [eqb]
  | .arr _, .num _ => by simp [eqb]
  | .arr _, .str _ => by simp [eqb]
  | .arr _, .obj _ => by simp [eqb]
  | .obj _, .null => by simp [eqb]
  | .obj _, .bool _ => by simp [eqb]
  | .obj _, .num _ => by simp [eqb]
  | .obj _, .str _ => by simp [eqb]
  | .obj _, .arr _ => by simp [eqb]

theorem eqbElems_eq : ∀ (a b : List Json), eqbElems a b = true ↔ a = b
  | u :: us, v :: vs => by
      have ihh := eqb_eq u v
      have iht := eqbElems_eq us vs
      simp [eqbElems, ihh, iht]
  | [], [] => by simp [eqbElems]
  | [], _ :: _ => by simp [eqbElems]
  | _ :: _, [] => by simp [eqbElems]

theorem eqbPairs_eq :
    ∀ (a b : List (String × Json)), eqbPairs a b = true ↔ a = b
  | (k1, v1) :: xs, (k2, v2) :: ys => by
      have ihh := eqb_eq v1 v2
      have iht := eqbPairs_eq xs ys
      simp [eqbPairs, ihh, iht, Prod.ext_iff, and_assoc]
  | [], [] => by simp [eqbPairs]
  | [], _ :: _ => by simp [eqbPairs]
  | _ :: _, [] => by simp [eqbPairs]

end

instance : DecidableEq Json := fun a b =>
  decidable_of_iff (eqb a b = true) (eqb_eq a b)

/-- Python truthiness (`if x:`): `None`, `False`, `0`, `""`, `[]`, and an
empty dict are falsy, everything else is truthy. -/
def truthy : Json → Bool
  | .null => false
  | .bool b => b
  | .num n => n != 0
  | .str s => s != ""
  | .arr xs => !xs.isEmpty
  | .obj fs => !fs.isEmpty

/-- `isinstance(x, dict)`. -/
def isObj : Json → Bool
  | .obj _ => true
  | _ => false

end Json

section Dict
variable {κ α : Type} [DecidableEq κ]

/-- Python-dict membership test / read: first entry with the key. -/
def dlookup : List (κ × α) → κ → Option α
  | [], _ => none
  | (k, v) :: rest, key => if k = key then some v else dlookup rest key

/-- Python-dict assignment `d[k] = v`: update in place if present,
append otherwise. -/
def dinsert : List (κ × α) → κ → α → List (κ × α)
  | [], key, v => [(key, v)]
  | (k, w) :: rest, key, v =>
      if k = key then (k, v) :: rest else (k, w) :: dinsert rest key v

/-- Python-dict deletion / `pop`: drop the entry with the key. -/
def derase : List (κ × α) → κ → List (κ × α)
  | [], _ => []
  | (k, v) :: rest, key => if k = key then rest else (k, v) :: derase rest key

/-- Number of entries carrying a given key. -/
def dcount (l : List (κ × α)) (key : κ) : Nat :=
  (l.filter (fun p => p.1 = key)).length

theorem dcount_cons_self (k : κ) (w : α) (tl : List (κ × α)) :
    dcount ((k, w) :: tl) k = dcount tl k + 1 := by
  simp [dcount, List.filter_cons]

theorem dcount_cons_ne (k' k : κ) (w : α) (tl : List (κ × α)) (h : k' ≠ k) :
    dcount ((k', w) :: tl) k = dcount tl k := by
  simp [dcount, List.filter_cons, h]

theorem dlookup_eq_none_of_dcount (l : List (κ × α)) (k : κ)
    (h : dcount l k = 0) : dlookup l k = none := by
  induction l with
  | nil => simp [dlookup]
  | cons hd tl ih =>
      obtain ⟨k', w⟩ := hd
      by_cases h2 : k' = k
      · subst h2; rw [dcount_cons_self] at h; omega
      · rw [dcount_cons_ne k' k w tl h2] at h
        simp only [dlookup, if_neg h2]
        exact ih h

theorem dcount_eq_zero_of_dlookup (l : List (κ × α)) (k : κ)
    (h : dlookup l k = none) : dcount l k = 0 := by
  induction l with
  | nil => simp [dcount]
  | cons hd tl ih =>
      obtain ⟨k', w⟩ := hd
      by_cases h2 : k' = k
      · simp [dlookup, h2] at h
      · simp only [dlookup, if_neg h2] at h
        rw [dcount_cons_ne k' k w tl h2]
        exact ih h

theorem dlookup_dinsert_self (l : List (κ × α)) (k : κ) (v : α) :
    dlookup (dinsert l k v) k = some v := by
  induction l with
  | nil => simp [dinsert, dlookup]
  | cons hd tl ih =>
      obtain ⟨k', w⟩ := hd
      by_cases h : k' = k
      · subst h; simp [dinsert, dlookup]
      · simp [dinsert, dlookup, h, ih]

theorem dlookup_dinsert_ne (l : List (κ × α)) (k k' : κ) (v : α)
    (h : k' ≠ k) : dlookup (dinsert l k v) k' = dlookup l k' := by
  induction l with
  | nil =>
      have h2 : ¬(k = k') := fun e => h e.symm
      simp [dinsert, dlookup, h2]
  | cons hd tl ih =>
      obtain ⟨k'', w⟩ := hd
      by_cases h2 : k'' = k
      · subst h2
        have h3 : ¬(k'' = k') := fun e => h e.symm
        simp [dinsert, dlookup, h3]
      · simp only [dinsert, if_neg h2, dlookup]
        by_cases h3 : k'' = k' <;> simp [h3, ih]

theorem dlookup_derase_self (l : List (κ × α)) (k : κ)
    (h : dcount l k ≤ 1) : dlookup (derase l k) k = none := by
  induction l with
  | nil => simp [derase, dlookup]
  | cons hd tl ih =>
      obtain ⟨k', w⟩ := hd
      by_cases h2 : k' = k
      · subst h2
        rw [dcount_cons_self] at h
        simp only [derase, if_pos rfl]
        exact dlookup_eq_none_of_dcount tl k' (by omega)
      · rw [dcount_cons_ne k' k w tl h2] at h
        simp only [derase, if_neg h2, dlookup, if_neg h2]
        exact ih h

theorem dlookup_derase_ne (l : List (κ × α)) (k k' : κ) (h : k' ≠ k) :
    dlookup (derase l k) k' = dlookup l k' := by
  induction l with
  | nil => simp [derase]
  | cons hd tl ih =>
      obtain ⟨k'', w⟩ := hd
      by_cases h2 : k'' = k
      · subst h2
        have h3 : ¬(k'' = k') := fun e => h e.symm
        simp [derase, dlookup, h3]
      · simp only [derase, if_neg h2, dlookup]
        by_cases h3 : k'' = k' <;> simp [h3, ih]

theorem dcount_dinsert_of_none (l : List (κ × α)) (k : κ) (v : α)
    (h : dlookup l k = none) : dcount (dinsert l k v) k = 1 := by
  induction l with
  | nil => simp [dinsert, dcount, List.filter]
  | cons hd tl ih =>
      obtain ⟨k', w⟩ := hd
      by_cases h2 : k' = k
      · simp [dlookup, h2] at h
      · simp only [dlookup, if_neg h2] at h
        simp only [dinsert, if_neg h2]
        rw [dcount_cons_ne k' k w _ h2, ih h]

end Dict

namespace Json

/-- `d.get(k)`: the value at the key, or Python `None` when absent (and
`None` when the receiver is not a dict, which the callers guard against). -/
def pyGet (j : Json) (k : String) : Json :=
  match j with
  | .obj fs => (dlookup fs k).getD .null
  | _ => .null

/-- `d.get(k, default)`: distinguishes an absent key (default) from a key
present with value `null` (returns `null`). -/
def pyGetD (j : Json) (k : String) (d : Json) : Json :=
  match j with
  | .obj fs => (dlookup fs k).getD d
  | _ => d

/-- `k in d` (key-presence test on a dict). -/
def hasKey (j : Json) (k : String) : Bool :=
  match j with
  | .obj fs => (dlookup fs k).isSome
  | _ => false

end Json

/-! ## Correlator and Line Reader (`MCPServerProcess`) -/

/-- Shared Correlator state of `MCPServerProcess`: `pending_requests` maps
a message id to its response slot (`none` models Python `None`, i.e. sent
but not yet answered), `response_events` maps a message id to whether its
`Event` has been set, and `running` is the bridge flag. The lock-protected
blocks of the Python code are modelled as atomic steps on this state. -/
structure CorrState where
  pending_requests : List (Json × Option Json)
  response_events : List (Json × Bool)
  running : Bool
deriving Repr, DecidableEq

/-- `msg_id = response.get('id')` on a parsed line (a JSON object given by
its fields); Python `None` is `null`. -/
def lineId (response : List (String × Json)) : Json :=
  (dlookup response "id").getD Json.null

/-- One iteration of the `_read_responses` loop on a parsed JSON-object
line: the delivery block of `src/http_wrapper.py` lines 153-167
(`if msg_id:` is Python truthiness). -/
def read_responses_step (st : CorrState)
    (response : List (String × Json)) : CorrState :=
  let msg_id := lineId response
  if msg_id.truthy then
    if (dlookup st.pending_requests msg_id).isSome then
      { st with
        pending_requests :=
          dinsert st.pending_requests msg_id (some (Json.obj response)),
        response_events :=
          if (dlookup st.response_events msg_id).isSome then
            dinsert st.response_events msg_id true
          else st.response_events }
    else st
  else st

/-- The reader thread's exit path (`src/http_wrapper.py` lines 174-181):
set every registered `Event`, then clear the running flag. -/
def reader_exit (st : CorrState) : CorrState :=
  { st with
    response_events := st.response_events.map (fun p => (p.1, true)),
    running := false }

/-- Registration of an outstanding request right after `_send_message`
(`self.pending_requests[msg_id] = None`, e.g. lines 349-351). -/
def register_pending (st : CorrState) (msg_id : Json) : CorrState :=
  { st with pending_requests := dinsert st.pending_requests msg_id none }

/-- How a `_wait_for_response` call returns. -/
inductive WaitOutcome where
  | timeout
  | terminated
  | missing
  | ok (resp : Json)
deriving Repr, DecidableEq

/-- `_wait_for_response` (`src/http_wrapper.py` lines 183-216) as a
function of the Correlator state at registration time. The thread
interleaving is captured by two oracles: `event_fired` is the value of
`event.wait(timeout)`, and `process_exited` is
`self.process.poll() is not None` at the check on line 203. -/
def wait_for_response (st : CorrState) (message_id : Json)
    (event_fired : Bool) (process_exited : Bool) : WaitOutcome × CorrState :=
  let st1 :=
    { st with response_events := dinsert st.response_events message_id false }
  if !event_fired then
    (.timeout,
     { st1 with
       pending_requests := derase st1.pending_requests message_id,
       response_events := derase st1.response_events message_id })
  else
    let response : Option Json :=
      (dlookup st1.pending_requests message_id).join
    let st2 :=
      { st1 with
        pending_requests := derase st1.pending_requests message_id,
        response_events := derase st1.response_events message_id }
    match response with
    | none =>
        if !st2.running || process_exited then (.terminated, st2)
        else (.missing, st2)
    | some r => (.ok r, st2)

theorem dlookup_map_value {κ α β : Type} [DecidableEq κ] (f : α → β)
    (l : List (κ × α)) (k : κ) :
    dlookup (l.map (fun p => (p.1, f p.2))) k = (dlookup l k).map f := by
  induction l with
  | nil => simp [dlookup]
  | cons hd tl ih =>
      obtain ⟨k', v⟩ := hd
      by_cases h : k' = k <;> simp [dlookup, h, ih]

theorem step_pending_ne (st : CorrState) (response : List (String × Json))
    (k : Json) (h : k ≠ lineId response) :
    dlookup (read_responses_step st response).pending_requests k
      = dlookup st.pending_requests k := by
  unfold read_responses_step
  by_cases h1 : (lineId response).truthy
  · by_cases h2 : (dlookup st.pending_requests (lineId response)).isSome
    · simp [h1, h2, dlookup_dinsert_ne _ _ _ _ h]
    · simp [h1, h2]
  · simp [h1]

theorem step_events_ne (st : CorrState) (response : List (String × Json))
    (k : Json) (h : k ≠ lineId response) :
    dlookup (read_responses_step st response).response_events k
      = dlookup st.response_events k := by
  unfold read_responses_step
  by_cases h1 : (lineId response).truthy
  · by_cases h2 : (dlookup st.pending_requests (lineId response)).isSome
    · by_cases h3 : (dlookup st.response_events (lineId response)).isSome
      · simp [h1, h2, h3, dlookup_dinsert_ne _ _ _ _ h]
      · simp [h1, h2, h3]
    · simp [h1, h2]
  · simp [h1]

theorem step_unmatched (st : CorrState) (response : List (String × Json))
    (h : dlookup st.pending_requests (lineId response) = none) :
    read_responses_step st response = st := by
  unfold read_responses_step
  by_cases h1 : (lineId response).truthy
  · simp [h1, h]
  · simp [h1]

theorem step_matched (st : CorrState) (response : List (String × Json))
    (h1 : (lineId response).truthy)
    (h2 : (dlookup st.pending_requests (lineId response)).isSome) :
    dlookup (read_responses_step st response).pending_requests
        (lineId response) = some (some (Json.obj response)) ∧
    ((dlookup st.response_events (lineId response)).isSome →
      dlookup (read_responses_step st response).response_events
          (lineId response) = some true) ∧
    (dlookup st.response_events (lineId response) = none →
      dlookup (read_responses_step st response).response_events
          (lineId response) = none) := by
  unfold read_responses_step
  refine ⟨?_, ?_, ?_⟩
  · simp [h1, h2, dlookup_dinsert_self]
  · intro h3
    simp [h1, h2, h3, dlookup_dinsert_self]
  · intro h3
    simp [h1, h2, h3]

theorem dcount_dinsert_le (l : List (Json × Bool)) (k : Json) (v : Bool)
    (h : dcount l k ≤ 1) : dcount (dinsert l k v) k ≤ 1 := by
  cases h2 : dlookup l k with
  | none => rw [dcount_dinsert_of_none l k v h2]
  | some w =>
      induction l with
      | nil => simp [dlookup] at h2
      | cons hd tl ih =>
          obtain ⟨k', w'⟩ := hd
          by_cases h3 : k' = k
          · subst h3
            rw [dcount_cons_self] at h
            have he : dinsert ((k', w') :: tl) k' v = (k', v) :: tl := by
              simp [dinsert]
            rw [he, dcount_cons_self]
            omega
          · simp only [dlookup, if_neg h3] at h2
            rw [dcount_cons_ne k' k w' tl h3] at h
            simp only [dinsert, if_neg h3]
            rw [dcount_cons_ne k' k w' _ h3]
            exact ih h h2

/-! ## Protocol Adapter (`handle_mcp_request` and JSON-RPC helpers) -/

/-- The fields of `MCPServerProcess` that `handle_mcp_request` reads: the
running flag and the capability caches loaded during startup. -/
structure MCPBridge where
  running : Bool
  tools : Json
  prompts : Json
  resources : Json
deriving Repr, DecidableEq

/-- A message the adapter forwards to the subprocess (`call_tool`,
`get_prompt`, `read_resource`). -/
inductive SubCall where
  | callTool (name : Json) (arguments : Json)
  | getPrompt (name : Json) (arguments : Json)
  | readResource (uri : Json)
deriving Repr, DecidableEq

/-- `create_jsonrpc_response` (`src/http_wrapper.py` lines 409-421);
`null` stands for a Python `None` argument. -/
def create_jsonrpc_response (result error request_id : Json) : Json :=
  let fs := [("jsonrpc", Json.str "2.0")]
  let fs := if error.truthy then fs ++ [("error", error)]
            else fs ++ [("result", result)]
  let fs := if request_id ≠ Json.null then fs ++ [("id", request_id)] else fs
  .obj fs

/-- `create_jsonrpc_error` (lines 424-429). -/
def create_jsonrpc_error (code : Int) (message : String)
    (data request_id : Json) : Json :=
  let error := Json.obj ([("code", .num code), ("message", .str message)]
    ++ (if data.truthy then [("data", data)] else []))
  create_jsonrpc_response .null error request_id

/-- The `error.code` field of a JSON-RPC reply, when present. -/
def errCode (j : Json) : Option Json :=
  match j with
  | .obj fs =>
      match dlookup fs "error" with
      | some (.obj es) => dlookup es "code"
      | _ => none
  | _ => none

/-- The `error.data` field of a JSON-RPC reply, when present. -/
def errData (j : Json) : Option Json :=
  match j with
  | .obj fs =>
      match dlookup fs "error" with
      | some (.obj es) => dlookup es "data"
      | _ => none
  | _ => none

/-- Result of one `handle_mcp_request` call: the JSON-RPC reply, the
subprocess call made while computing it (if any), and the updated
session table. -/
structure HandleResult where
  response : Json
  forwarded : Option SubCall
  sessions : List (String × Json)
deriving Repr, DecidableEq

/-- The fixed capability advertisement returned for `initialize`
(lines 486-497). -/
def initializeResult : Json :=
  .obj [("protocolVersion", .str "2024-11-05"),
        ("capabilities",
          .obj [("tools", .obj []), ("prompts", .obj []),
                ("resources", .obj [])]),
        ("serverInfo",
          .obj [("name", .str "mcp-http-wrapper"),
                ("version", .str "1.0.0")])]

/-- `handle_mcp_request` (lines 447-550). `server` is the global
`mcp_server` (`none` models Python `None`); `sub` is the oracle giving the
subprocess response for a forwarded pass-through call. -/
def handle_mcp_request (server : Option MCPBridge) (sub : SubCall → Json)
    (sessions : List (String × Json)) (data : Json)
    (session_id : Option String) : HandleResult :=
  match server with
  | none =>
      ⟨create_jsonrpc_error (-32603) "MCP server not running" .null .null,
       none, sessions⟩
  | some srv =>
    if !srv.running then
      ⟨create_jsonrpc_error (-32603) "MCP server not running" .null .null,
       none, sessions⟩
    else if !data.isObj then
      ⟨create_jsonrpc_error (-32600) "Invalid Request"
         (.str "Request must be JSON object") .null, none, sessions⟩
    else if data.pyGet "jsonrpc" ≠ .str "2.0" then
      ⟨create_jsonrpc_error (-32600) "Invalid Request"
         (.str "Missing or invalid jsonrpc version") .null, none, sessions⟩
    else
      match data.pyGet "method" with
      | .str s =>
        if s = "" then
          ⟨create_jsonrpc_error (-32600) "Invalid Request"
             (.str "Missing or invalid method") .null, none, sessions⟩
        else
          let params := data.pyGetD "params" (.obj [])
          let request_id := data.pyGet "id"
          if s = "initialize" then
            if !params.isObj then
              ⟨create_jsonrpc_error (-32602) "Invalid params"
                 (.str "Params must be object") request_id, none, sessions⟩
            else
              let capabilities := params.pyGetD "capabilities" (.obj [])
              let client_info := params.pyGetD "clientInfo" (.obj [])
              let sessions' :=
                match session_id with
                | some sid =>
                    if sid ≠ "" then
                      dinsert sessions sid
                        (.obj [("initialized", .bool true),
                               ("client_info", client_info),
                               ("capabilities", capabilities)])
                    else sessions
                | none => sessions
              ⟨create_jsonrpc_response initializeResult .null request_id,
               none, sessions'⟩
          else if s = "tools/list" then
            ⟨create_jsonrpc_response (.obj [("tools", srv.tools)]) .null
               request_id, none, sessions⟩
          else if s = "tools/call" then
            if !params.isObj || !params.hasKey "name" then
              ⟨create_jsonrpc_error (-32602) "Invalid params"
                 (.str "Missing \x27name\x27 parameter") request_id,
               none, sessions⟩
            else
              let tool_name := params.pyGet "name"
              let arguments := params.pyGetD "arguments" (.obj [])
              let response := sub (.callTool tool_name arguments)
              if response.hasKey "error" then
                ⟨create_jsonrpc_error (-32603) "Internal error"
                   (response.pyGet "error") request_id,
                 some (.callTool tool_name arguments), sessions⟩
              else
                ⟨create_jsonrpc_response (response.pyGetD "result" (.obj []))
                   .null request_id,
                 some (.callTool tool_name arguments), sessions⟩
          else if s = "prompts/list" then
            ⟨create_jsonrpc_response (.obj [("prompts", srv.prompts)]) .null
               request_id, none, sessions⟩
          else if s = "prompts/get" then
            if !params.isObj || !params.hasKey "name" then
              ⟨create_jsonrpc_error (-32602) "Invalid params"
                 (.str "Missing \x27name\x27 parameter") request_id,
               none, sessions⟩
            else
              let prompt_name := params.pyGet "name"
              let arguments := params.pyGet "arguments"
              let response := sub (.getPrompt prompt_name arguments)
              if response.hasKey "error" then
                ⟨create_jsonrpc_error (-32603) "Internal error"
                   (response.pyGet "error") request_id,
                 some (.getPrompt prompt_name arguments), sessions⟩
              else
                ⟨create_jsonrpc_response (response.pyGetD "result" (.obj []))
                   .null request_id,
                 some (.getPrompt prompt_name arguments), sessions⟩
          else if s = "resources/list" then
            ⟨create_jsonrpc_response (.obj [("resources", srv.resources)])
               .null request_id, none, sessions⟩
          else if s = "resources/read" then
            if !params.isObj || !params.hasKey "uri" then
              ⟨create_jsonrpc_error (-32602) "Invalid params"
                 (.str "Missing \x27uri\x27 parameter") request_id,
               none, sessions⟩
            else
              let resource_uri := params.pyGet "uri"
              let response := sub (.readResource resource_uri)
              if response.hasKey "error" then
                ⟨create_jsonrpc_error (-32603) "Internal error"
                   (response.pyGet "error") request_id,
                 some (.readResource resource_uri), sessions⟩
              else
                ⟨create_jsonrpc_response (response.pyGetD "result" (.obj []))
                   .null request_id,
                 some (.readResource resource_uri), sessions⟩
          else
            ⟨create_jsonrpc_error (-32601) "Method not found"
               (.str ("Unknown method: " ++ s)) request_id, none, sessions⟩
      | _ =>
          ⟨create_jsonrpc_error (-32600) "Invalid Request"
             (.str "Missing or invalid method") .null, none, sessions⟩

/-- `_load_tools` (lines 283-299): the capability-cache update applied to
the subprocess response of the startup `tools/list` request. -/
def load_tools (srv : MCPBridge) (response : Json) : MCPBridge :=
  if response.hasKey "error" then srv
  else { srv with
         tools := (response.pyGetD "result" (.obj [])).pyGetD "tools"
           (.arr []) }

/-- `_load_prompts` (lines 301-317). -/
def load_prompts (srv : MCPBridge) (response : Json) : MCPBridge :=
  if response.hasKey "error" then srv
  else { srv with
         prompts := (response.pyGetD "result" (.obj [])).pyGetD "prompts"
           (.arr []) }

/-- `_load_resources` (lines 319-335). -/
def load_resources (srv : MCPBridge) (response : Json) : MCPBridge :=
  if response.hasKey "error" then srv
  else { srv with
         resources := (response.pyGetD "result" (.obj [])).pyGetD "resources"
           (.arr []) }

/-! ## Transport layer: origin validation, `mcp_post`, `mcp_get`, SSE queues -/

/-- `pre.isPrefixOf s` by characters (Python `s.startswith(pre)`), written
so that it reduces in the kernel. -/
def charPrefix : List Char → List Char → Bool
  | [], _ => true
  | _ :: _, [] => false
  | p :: ps, c :: cs => p == c && charPrefix ps cs

/-- `s.startswith(pre)` (Python `str.startswith`). -/
def startswith (s pre : String) : Bool :=
  charPrefix pre.data s.data

/-- `charContains pat s`: `pat` occurs as a contiguous run of `s`. -/
def charContains (pat : List Char) : List Char → Bool
  | [] => charPrefix pat []
  | c :: cs => charPrefix pat (c :: cs) || charContains pat cs

/-- Python `pat in s` on strings (substring containment). -/
def pyIn (pat s : String) : Bool :=
  charContains pat.data s.data

/-- The allow-list of `validate_origin` (`src/http_wrapper.py` line 438). -/
def allowed_origins : List String :=
  ["http://localhost", "https://localhost", "http://127.0.0.1",
   "https://127.0.0.1"]

/-- `validate_origin` (lines 432-444). The argument is
`request.headers.get('Origin')` (`none` when the header is absent);
`if not origin` is Python truthiness on `None` or the string. -/
def validate_origin : Option String → Bool
  | none => true
  | some origin =>
      if origin = "" then true
      else allowed_origins.any (fun allowed => startswith origin allowed)

/-- The `sse_queues` table: session id → contents of that session's
`queue.Queue` (its not-yet-delivered messages, FIFO). -/
abbrev SseQueues := List (String × List Json)

/-- The queue-creation step shared by `handle_sse_request` (lines 554-557)
and `mcp_get` (lines 656-658):
`if session_id not in sse_queues: sse_queues[session_id] = queue.Queue()`. -/
def ensure_queue (qs : SseQueues) (session_id : String) : SseQueues :=
  if (dlookup qs session_id).isSome then qs
  else dinsert qs session_id []

/-- `sse_queues[session_id].put(message)` (line 632). -/
def queue_put (qs : SseQueues) (session_id : String)
    (message : Json) : SseQueues :=
  match dlookup qs session_id with
  | some q => dinsert qs session_id (q ++ [message])
  | none => qs

/-- One pull of `sse_queues[session_id].get(...)` by a stream generator
(lines 663-670): the delivered message, if one is queued. -/
def queue_get (qs : SseQueues) (session_id : String) :
    Option Json × SseQueues :=
  match dlookup qs session_id with
  | some (m :: rest) => (some m, dinsert qs session_id rest)
  | some [] => (none, qs)
  | none => (none, qs)

/-- Result of `request.get_json()`: a parse failure or a JSON value. -/
inductive BodyParse where
  | failed (message : String)
  | parsed (data : Json)
deriving Repr, DecidableEq

/-- The parts of an inbound Flask request that `mcp_post` reads. -/
structure PostReq where
  origin : Option String
  mcp_session_id : Option String
  accept : String
  body : BodyParse
deriving Repr, DecidableEq

/-- The outward behaviour of one `mcp_post` call. -/
inductive PostResult where
  | forbidden (body : Json) (status : Nat)
  | badRequest (body : Json) (status : Nat)
  | sseStream (initial : Json) (session_id : String)
  | sentViaSSE (status : Nat)
  | jsonReply (body : Json) (session_id : String)
deriving Repr, DecidableEq

/-- Outcome of `mcp_post`: the transport-level result, the Protocol
Adapter call made for it (`none` when `handle_mcp_request` was never
invoked), and the updated queue and session tables. -/
structure PostOutcome where
  result : PostResult
  handled : Option HandleResult
  queues : SseQueues
  sessions : List (String × Json)
deriving Repr, DecidableEq

/-- `'text/event-stream' in accept_header` (substring containment,
line 604-605). -/
def wants_sse (accept : String) : Bool :=
  pyIn "text/event-stream" accept

/-- `mcp_post` (lines 590-640). `fresh_session_id` stands for the
`str(uuid.uuid4())` minted when no session header is given. -/
def mcp_post (server : Option MCPBridge) (sub : SubCall → Json)
    (sessions : List (String × Json)) (qs : SseQueues)
    (req : PostReq) (fresh_session_id : String) : PostOutcome :=
  if !validate_origin req.origin then
    ⟨.forbidden (create_jsonrpc_error (-32603) "Invalid Origin header"
        .null .null) 403,
     none, qs, sessions⟩
  else
    let session_id :=
      match req.mcp_session_id with
      | some sid => if sid ≠ "" then sid else fresh_session_id
      | none => fresh_session_id
    match req.body with
    | .failed e =>
        let error_response :=
          create_jsonrpc_error (-32700) "Parse error" (.str e) .null
        if wants_sse req.accept then
          ⟨.sseStream error_response session_id, none,
           ensure_queue qs session_id, sessions⟩
        else
          ⟨.badRequest error_response 400, none, qs, sessions⟩
    | .parsed data =>
        if !data.truthy then
          let error_response :=
            create_jsonrpc_error (-32600) "Invalid Request"
              (.str "Empty request body") .null
          if wants_sse req.accept then
            ⟨.sseStream error_response session_id, none,
             ensure_queue qs session_id, sessions⟩
          else
            ⟨.badRequest error_response 400, none, qs, sessions⟩
        else
          let h := handle_mcp_request server sub sessions data
            (some session_id)
          if wants_sse req.accept then
            ⟨.sseStream h.response session_id, some h,
             ensure_queue qs session_id, h.sessions⟩
          else if (dlookup qs session_id).isSome then
            ⟨.sentViaSSE 200, some h,
             queue_put qs session_id h.response, h.sessions⟩
          else
            ⟨.jsonReply h.response session_id, some h, qs, h.sessions⟩

/-- The outward behaviour of one `mcp_get` call. -/
inductive GetResult where
  | forbidden (body : String) (status : Nat)
  | stream (session_id : String)
deriving Repr, DecidableEq

/-- Outcome of `mcp_get`: the result and the updated queue table. -/
structure GetOutcome where
  result : GetResult
  queues : SseQueues
deriving Repr, DecidableEq

/-- `mcp_get` (lines 643-686) up to the start of the event stream:
origin check, session-id choice, queue creation. -/
def mcp_get (qs : SseQueues) (origin : Option String)
    (mcp_session_id : Option String) (fresh_session_id : String) :
    GetOutcome :=
  if !validate_origin origin then
    ⟨.forbidden "Invalid Origin header" 403, qs⟩
  else
    let session_id :=
      match mcp_session_id with
      | some sid => if sid ≠ "" then sid else fresh_session_id
      | none => fresh_session_id
    ⟨.stream session_id, ensure_queue qs session_id⟩

/-! ## `mcp_endpoint` of `src/copilot_wrapper.py` -/

/-- The fixed `initialize` reply body of `copilot_wrapper.py`
(lines 138-154). -/
def copilotInitializeResult : Json :=
  .obj [("protocolVersion", .str "2024-11-05"),
        ("capabilities",
          .obj [("tools", .obj [("listChanged", .bool false)])]),
        ("serverInfo",
          .obj [("name", .str "revit-mcp"), ("version", .str "1.0.0")]),
        ("instructions",
          .str "Revit MCP Server with 15 tools for BIM automation")]

/-- Outward behaviour of `copilot_wrapper.py`'s `mcp_endpoint`:
`noBody` is `return '', 204`, `body` is `jsonify(...)` with status 200,
`error500` is the `except` branch (carrying the request id it echoes). -/
inductive CopilotResult where
  | noBody (status : Nat)
  | body (j : Json)
  | error500 (msg_id : Json)
deriving Repr, DecidableEq

/-- `mcp_endpoint` of `src/copilot_wrapper.py` (lines 124-184) on a parsed
JSON-object body, given by its fields. `sub` is `send_and_wait`; the Bool
of the result records whether `send_and_wait` was invoked. A truthy
non-string `method` hits `method.startswith` and raises `AttributeError`
into the `except` branch. -/
def copilot_mcp_endpoint (tools_cache : Json) (sub : Json → Json)
    (data : List (String × Json)) : CopilotResult × Bool :=
  let method := (dlookup data "method").getD Json.null
  let msg_id := (dlookup data "id").getD Json.null
  match method with
  | .str s =>
      if s = "initialize" then
        (.body (Json.obj [("jsonrpc", .str "2.0"), ("id", msg_id),
           ("result", copilotInitializeResult)]), false)
      else if s ≠ "" && startswith s "notifications/" then
        (.noBody 204, false)
      else if s = "tools/list" then
        (.body (Json.obj [("jsonrpc", .str "2.0"), ("id", msg_id),
           ("result", .obj [("tools", tools_cache)])]), false)
      else
        (.body (sub (Json.obj data)), true)
  | m =>
      if m.truthy then (.error500 msg_id, false)
      else (.body (sub (Json.obj data)), true)

/-! ## Helper lemmas about the error envelope shape -/

theorem errCode_create_jsonrpc_error (code : Int) (message : String)
    (data request_id : Json) :
    errCode (create_jsonrpc_error code message data request_id)
      = some (.num code) := by
  unfold create_jsonrpc_error create_jsonrpc_response errCode
  by_cases hd : data.truthy <;>
    by_cases hr : request_id ≠ Json.null <;>
      simp [hd, hr, Json.truthy, dlookup]

theorem errData_create_jsonrpc_error (code : Int) (message : String)
    (data request_id : Json) (h : data.truthy = true) :
    errData (create_jsonrpc_error code message data request_id)
      = some data := by
  unfold create_jsonrpc_error create_jsonrpc_response errData
  by_cases hr : request_id ≠ Json.null <;>
    simp [h, hr, dlookup]

/-! ## Claim theorems -/

/-- C10: when the bridge's subprocess is not running (global server unset
or its running flag cleared), `handle_mcp_request` returns the fixed
internal error envelope (code -32603, "MCP server not running") for every
input — malformed ones included — without touching the subprocess or the
session table, because the not-running check precedes all JSON-RPC
validation. -/
theorem not_running_fixed_error_first (server : Option MCPBridge)
    (sub : SubCall → Json) (sessions : List (String × Json)) (data : Json)
    (sid : Option String)
    (h : server = none ∨ ∃ srv, server = some srv ∧ srv.running = false) :
    handle_mcp_request server sub sessions data sid =
      ⟨create_jsonrpc_error (-32603) "MCP server not running" .null .null,
       none, sessions⟩ := by
  rcases h with h | ⟨srv, rfl, hrun⟩
  · subst h; rfl
  · simp [handle_mcp_request, hrun]

/-- Witness for C10 at a malformed input (a bare string body) on a
stopped bridge. -/
theorem not_running_fixed_error_first_witness :
    ((some (⟨false, .arr [], .arr [], .arr []⟩ : MCPBridge)
        = (none : Option MCPBridge)) ∨
      ∃ srv, some (⟨false, .arr [], .arr [], .arr []⟩ : MCPBridge)
          = some srv ∧ srv.running = false) ∧
    handle_mcp_request (some ⟨false, .arr [], .arr [], .arr []⟩)
        (fun _ => Json.null) [] (.str "not a json object") none =
      ⟨create_jsonrpc_error (-32603) "MCP server not running" .null .null,
       none, []⟩ :=
  ⟨Or.inr ⟨_, rfl, rfl⟩,
   not_running_fixed_error_first _ _ _ _ _ (Or.inr ⟨_, rfl, rfl⟩)⟩

/-- C7: on a running bridge, every inbound envelope whose `jsonrpc` field
is missing or not equal to "2.0" (including non-object envelopes) is
answered with an InvalidRequest error envelope of code -32600, and no
message is forwarded to the subprocess for it. -/
theorem invalid_jsonrpc_rejected_not_forwarded (srv : MCPBridge)
    (sub : SubCall → Json) (sessions : List (String × Json)) (data : Json)
    (sid : Option String) (hrun : srv.running = true)
    (h : data.pyGet "jsonrpc" ≠ .str "2.0") :
    errCode (handle_mcp_request (some srv) sub sessions data sid).response
        = some (.num (-32600)) ∧
    (handle_mcp_request (some srv) sub sessions data sid).forwarded
        = none := by
  by_cases hobj : data.isObj
  · constructor <;>
      simp [handle_mcp_request, hrun, hobj, h, errCode_create_jsonrpc_error]
  · constructor <;>
      simp [handle_mcp_request, hrun, hobj, errCode_create_jsonrpc_error]

/-- Witness for C7 at the spec's example request
`{"method":"tools/list","id":1}` with no `jsonrpc` field. -/
theorem invalid_jsonrpc_rejected_not_forwarded_witness :
    ((MCPBridge.mk true (.arr []) (.arr []) (.arr [])).running = true) ∧
    ((Json.obj [("method", .str "tools/list"), ("id", .num 1)]).pyGet
        "jsonrpc" ≠ .str "2.0") ∧
    (errCode (handle_mcp_request (some ⟨true, .arr [], .arr [], .arr []⟩)
          (fun _ => Json.null) []
          (.obj [("method", .str "tools/list"), ("id", .num 1)])
          none).response = some (.num (-32600)) ∧
     (handle_mcp_request (some ⟨true, .arr [], .arr [], .arr []⟩)
          (fun _ => Json.null) []
          (.obj [("method", .str "tools/list"), ("id", .num 1)])
          none).forwarded = none) :=
  ⟨rfl, by decide,
   invalid_jsonrpc_rejected_not_forwarded _ _ _ _ _ rfl (by decide)⟩

/-- C8: on a running bridge, every `tools/call` request whose `params` is
not a mapping or lacks the required `name` field is answered with an
InvalidParams error envelope of code -32602 whose diagnostic data is the
message referencing "name", and nothing is forwarded to the subprocess. -/
theorem tools_call_missing_name_rejected (srv : MCPBridge)
    (sub : SubCall → Json) (sessions : List (String × Json)) (data : Json)
    (sid : Option String) (hrun : srv.running = true)
    (hobj : data.isObj = true)
    (hrpc : data.pyGet "jsonrpc" = .str "2.0")
    (hm : data.pyGet "method" = .str "tools/call")
    (hp : (!(data.pyGetD "params" (.obj [])).isObj
            || !(data.pyGetD "params" (.obj [])).hasKey "name") = true) :
    errCode (handle_mcp_request (some srv) sub sessions data sid).response
        = some (.num (-32602)) ∧
    errData (handle_mcp_request (some srv) sub sessions data sid).response
        = some (.str "Missing \x27name\x27 parameter") ∧
    pyIn "name" "Missing \x27name\x27 parameter" = true ∧
    (handle_mcp_request (some srv) sub sessions data sid).forwarded
        = none := by
  rw [Bool.or_eq_true, Bool.not_eq_true', Bool.not_eq_true'] at hp
  refine ⟨?_, ?_, by decide, ?_⟩ <;>
    rcases hp with hp | hp <;>
      simp [handle_mcp_request, hrun, hobj, hrpc, hm, hp,
        errCode_create_jsonrpc_error, errData_create_jsonrpc_error,
        Json.truthy]

/-- Witness for C8 at the spec's example: `tools/call` with `params`
carrying only `arguments`. -/
theorem tools_call_missing_name_rejected_witness :
    ((MCPBridge.mk true (.arr []) (.arr []) (.arr [])).running = true) ∧
    ((!((Json.obj [("jsonrpc", .str "2.0"), ("method", .str "tools/call"),
          ("params", .obj [("arguments", .obj [])]), ("id", .num 1)]).pyGetD
            "params" (.obj [])).isObj
        || !((Json.obj [("jsonrpc", .str "2.0"),
              ("method", .str "tools/call"),
              ("params", .obj [("arguments", .obj [])]),
              ("id", .num 1)]).pyGetD "params" (.obj [])).hasKey "name")
      = true) ∧
    errCode (handle_mcp_request (some ⟨true, .arr [], .arr [], .arr []⟩)
        (fun _ => Json.null) []
        (.obj [("jsonrpc", .str "2.0"), ("method", .str "tools/call"),
               ("params", .obj [("arguments", .obj [])]), ("id", .num 1)])
        none).response = some (.num (-32602)) ∧
    errData (handle_mcp_request (some ⟨true, .arr [], .arr [], .arr []⟩)
        (fun _ => Json.null) []
        (.obj [("jsonrpc", .str "2.0"), ("method", .str "tools/call"),
               ("params", .obj [("arguments", .obj [])]), ("id", .num 1)])
        none).response = some (.str "Missing \x27name\x27 parameter") ∧
    (handle_mcp_request (some ⟨true, .arr [], .arr [], .arr []⟩)
        (fun _ => Json.null) []
        (.obj [("jsonrpc", .str "2.0"), ("method", .str "tools/call"),
               ("params", .obj [("arguments", .obj [])]), ("id", .num 1)])
        none).forwarded = none := by
  have h := tools_call_missing_name_rejected
    ⟨true, .arr [], .arr [], .arr []⟩ (fun _ => Json.null) []
    (.obj [("jsonrpc", .str "2.0"), ("method", .str "tools/call"),
           ("params", .obj [("arguments", .obj [])]), ("id", .num 1)])
    none rfl (by decide) (by decide) (by decide) (by decide)
  exact ⟨rfl, by decide, h.1, h.2.1, h.2.2.2⟩

/-- C9: on a running bridge whose capability caches were populated by the
startup `_load_tools` / `_load_prompts` / `_load_resources` calls, every
`tools/list`, `prompts/list` and `resources/list` request is answered
exactly with the corresponding cached list and no message is forwarded to
the subprocess for it. -/
theorem list_methods_served_from_cache (srv : MCPBridge)
    (sub : SubCall → Json) (sessions : List (String × Json)) (data : Json)
    (sid : Option String) (rt rp rr : Json)
    (hrun : srv.running = true)
    (hobj : data.isObj = true)
    (hrpc : data.pyGet "jsonrpc" = .str "2.0")
    (het : rt.hasKey "error" = false) (hep : rp.hasKey "error" = false)
    (her : rr.hasKey "error" = false) :
    let loaded := load_resources (load_prompts (load_tools srv rt) rp) rr
    (data.pyGet "method" = .str "tools/list" →
      handle_mcp_request (some loaded) sub sessions data sid =
        ⟨create_jsonrpc_response
           (.obj [("tools",
              (rt.pyGetD "result" (.obj [])).pyGetD "tools" (.arr []))])
           .null (data.pyGet "id"), none, sessions⟩) ∧
    (data.pyGet "method" = .str "prompts/list" →
      handle_mcp_request (some loaded) sub sessions data sid =
        ⟨create_jsonrpc_response
           (.obj [("prompts",
              (rp.pyGetD "result" (.obj [])).pyGetD "prompts" (.arr []))])
           .null (data.pyGet "id"), none, sessions⟩) ∧
    (data.pyGet "method" = .str "resources/list" →
      handle_mcp_request (some loaded) sub sessions data sid =
        ⟨create_jsonrpc_response
           (.obj [("resources",
              (rr.pyGetD "result" (.obj [])).pyGetD "resources" (.arr []))])
           .null (data.pyGet "id"), none, sessions⟩) := by
  have hl : (load_resources (load_prompts (load_tools srv rt) rp)
      rr).running = true := by
    simp [load_tools, load_prompts, load_resources, het, hep, her, hrun]
  have htools : (load_resources (load_prompts (load_tools srv rt) rp)
      rr).tools = (rt.pyGetD "result" (.obj [])).pyGetD "tools" (.arr []) := by
    simp [load_tools, load_prompts, load_resources, het, hep, her]
  have hprompts : (load_resources (load_prompts (load_tools srv rt) rp)
      rr).prompts
      = (rp.pyGetD "result" (.obj [])).pyGetD "prompts" (.arr []) := by
    simp [load_tools, load_prompts, load_resources, het, hep, her]
  have hres : (load_resources (load_prompts (load_tools srv rt) rp)
      rr).resources
      = (rr.pyGetD "result" (.obj [])).pyGetD "resources" (.arr []) := by
    simp [load_tools, load_prompts, load_resources, het, hep, her]
  refine ⟨?_, ?_, ?_⟩ <;> intro hm <;>
    simp [handle_mcp_request, hl, hobj, hrpc, hm, htools, hprompts, hres]

/-- Witness for C9: caches loaded from concrete subprocess responses, a
`tools/list` request answered exactly from them. -/
theorem list_methods_served_from_cache_witness :
    ((MCPBridge.mk true (.arr []) (.arr []) (.arr [])).running = true) ∧
    ((Json.obj [("jsonrpc", .str "2.0"), ("method", .str "tools/list"),
        ("id", .num 3)]).pyGet "method" = .str "tools/list") ∧
    handle_mcp_request
        (some (load_resources (load_prompts
          (load_tools ⟨true, .arr [], .arr [], .arr []⟩
            (.obj [("id", .str "2"),
                   ("result", .obj [("tools",
                      .arr [.obj [("name", .str "read_file")]])])]))
          (.obj [("id", .str "3"), ("result", .obj [("prompts", .arr [])])]))
          (.obj [("id", .str "4"),
                 ("result", .obj [("resources", .arr [])])])))
        (fun _ => Json.null) []
        (.obj [("jsonrpc", .str "2.0"), ("method", .str "tools/list"),
               ("id", .num 3)]) none =
      ⟨create_jsonrpc_response
         (.obj [("tools", .arr [.obj [("name", .str "read_file")]])])
         .null (.num 3), none, []⟩ := by
  have h := list_methods_served_from_cache
    ⟨true, .arr [], .arr [], .arr []⟩ (fun _ => Json.null) []
    (.obj [("jsonrpc", .str "2.0"), ("method", .str "tools/list"),
           ("id", .num 3)]) none
    (.obj [("id", .str "2"),
           ("result", .obj [("tools",
              .arr [.obj [("name", .str "read_file")]])])])
    (.obj [("id", .str "3"), ("result", .obj [("prompts", .arr [])])])
    (.obj [("id", .str "4"), ("result", .obj [("resources", .arr [])])])
    rfl (by decide) (by decide) (by decide) (by decide) (by decide)
  exact ⟨rfl, by decide, h.1 (by decide)⟩

/-- C6 counterexample: in `http_wrapper.py`, an inbound
`notifications/initialized` call on a running bridge is NOT acknowledged
with no body — `handle_mcp_request` has no notifications branch, so it
falls into the unknown-method arm and produces a `MethodNotFound` error
envelope (code -32601). -/
theorem notifications_yield_method_not_found_counterexample :
    (handle_mcp_request (some ⟨true, .arr [], .arr [], .arr []⟩)
        (fun _ => Json.null) []
        (.obj [("jsonrpc", .str "2.0"),
               ("method", .str "notifications/initialized")])
        none).response
      = create_jsonrpc_error (-32601) "Method not found"
          (.str "Unknown method: notifications/initialized") .null ∧
    errCode (handle_mcp_request (some ⟨true, .arr [], .arr [], .arr []⟩)
        (fun _ => Json.null) []
        (.obj [("jsonrpc", .str "2.0"),
               ("method", .str "notifications/initialized")])
        none).response = some (.num (-32601)) :=
  ⟨rfl, rfl⟩

/-- C6 amended: in `copilot_wrapper.py`'s `mcp_endpoint`, every inbound
call whose method starts with `notifications/` is acknowledged immediately
with no body (status 204), never correlated or forwarded, and produces no
error envelope; in `http_wrapper.py`'s `handle_mcp_request`, the same call
is not forwarded either but is answered with a `MethodNotFound` (-32601)
error envelope. -/
theorem notifications_acknowledged_amended :
    (∀ (tools_cache : Json) (sub : Json → Json)
       (data : List (String × Json)) (s : String),
        dlookup data "method" = some (.str s) →
        startswith s "notifications/" = true →
        copilot_mcp_endpoint tools_cache sub data
          = (.noBody 204, false)) ∧
    (∀ (srv : MCPBridge) (sub : SubCall → Json)
       (sessions : List (String × Json)) (data : Json)
       (sid : Option String) (s : String),
        srv.running = true → data.isObj = true →
        data.pyGet "jsonrpc" = .str "2.0" →
        data.pyGet "method" = .str s →
        startswith s "notifications/" = true →
        (handle_mcp_request (some srv) sub sessions data sid).response
            = create_jsonrpc_error (-32601) "Method not found"
                (.str ("Unknown method: " ++ s)) (data.pyGet "id") ∧
        (handle_mcp_request (some srv) sub sessions data sid).forwarded
            = none) := by
  constructor
  · intro tools_cache sub data s hm hpre
    have h0 : s ≠ "" := by rintro rfl; exact absurd hpre (by decide)
    have h1 : s ≠ "initialize" := by
      rintro rfl; exact absurd hpre (by decide)
    simp [copilot_mcp_endpoint, hm, h0, h1, hpre]
  · intro srv sub sessions data sid s hrun hobj hrpc hm hpre
    have h0 : s ≠ "" := by rintro rfl; exact absurd hpre (by decide)
    have h1 : s ≠ "initialize" := by
      rintro rfl; exact absurd hpre (by decide)
    have h2 : s ≠ "tools/list" := by
      rintro rfl; exact absurd hpre (by decide)
    have h3 : s ≠ "tools/call" := by
      rintro rfl; exact absurd hpre (by decide)
    have h4 : s ≠ "prompts/list" := by
      rintro rfl; exact absurd hpre (by decide)
    have h5 : s ≠ "prompts/get" := by
      rintro rfl; exact absurd hpre (by decide)
    have h6 : s ≠ "resources/list" := by
      rintro rfl; exact absurd hpre (by decide)
    have h7 : s ≠ "resources/read" := by
      rintro rfl; exact absurd hpre (by decide)
    constructor <;>
      simp [handle_mcp_request, hrun, hobj, hrpc, hm, h0, h1, h2, h3, h4,
        h5, h6, h7]

/-- Witness for the amended C6 at `notifications/initialized`. -/
theorem notifications_acknowledged_amended_witness :
    (dlookup [("jsonrpc", Json.str "2.0"),
        ("method", Json.str "notifications/initialized")] "method"
      = some (.str "notifications/initialized")) ∧
    (startswith "notifications/initialized" "notifications/" = true) ∧
    copilot_mcp_endpoint (.arr []) (fun _ => Json.null)
        [("jsonrpc", Json.str "2.0"),
         ("method", Json.str "notifications/initialized")]
      = (.noBody 204, false) :=
  ⟨by decide, by decide,
   notifications_acknowledged_amended.1 (.arr []) (fun _ => Json.null)
     [("jsonrpc", Json.str "2.0"),
      ("method", Json.str "notifications/initialized")]
     "notifications/initialized" (by decide) (by decide)⟩

/-- C5 counterexample: an empty (present but blank) `Origin` value is
accepted by `validate_origin` even though it is neither absent nor a
prefix match of any allow-listed origin, so "accepted if and only if
absent or prefix-matching" is false as stated. -/
theorem empty_origin_accepted_counterexample :
    validate_origin (some "") = true ∧
    (some "" : Option String) ≠ none ∧
    allowed_origins.all
      (fun allowed => !(startswith "" allowed)) = true := by
  refine ⟨by decide, by decide, by decide⟩

/-- C5 amended: an inbound call passes origin validation if and only if
its `Origin` is absent, empty, or starts with one of the four allow-listed
localhost origins; any call failing that check is rejected by `mcp_post`
with the fixed 403 status carrying a structured error body, and
`handle_mcp_request` is never invoked for it. -/
theorem origin_allowlist_amended :
    (∀ o : Option String,
        validate_origin o = true ↔
          (o = none ∨ o = some "" ∨
            ∃ s, o = some s ∧
              allowed_origins.any (fun allowed => startswith s allowed)
                = true)) ∧
    (∀ (server : Option MCPBridge) (sub : SubCall → Json)
       (sessions : List (String × Json)) (qs : SseQueues) (req : PostReq)
       (fresh : String),
        validate_origin req.origin = false →
        mcp_post server sub sessions qs req fresh =
          ⟨.forbidden (create_jsonrpc_error (-32603) "Invalid Origin header"
              .null .null) 403,
           none, qs, sessions⟩) := by
  constructor
  · intro o
    cases o with
    | none => simp [validate_origin]
    | some s =>
        by_cases hs : s = ""
        · subst hs; simp [validate_origin]
        · simp only [validate_origin, if_neg hs]
          constructor
          · intro h
            exact Or.inr (Or.inr ⟨s, rfl, h⟩)
          · rintro (h | h | ⟨s', hs', h⟩)
            · exact absurd h (by simp)
            · exact absurd h (by simp [hs])
            · cases Option.some.injEq .. ▸ hs' with
              | refl => exact h
  · intro server sub sessions qs req fresh h
    simp [mcp_post, h]

/-- Witness for the amended C5: `http://evil.example` fails the check and
`mcp_post` rejects it with the fixed forbidden outcome, never reaching the
adapter. -/
theorem origin_allowlist_amended_witness :
    (validate_origin (some "http://evil.example") = false) ∧
    mcp_post (some ⟨true, .arr [], .arr [], .arr []⟩) (fun _ => Json.null)
        [] []
        ⟨some "http://evil.example", none, "application/json",
         .parsed (.obj [("jsonrpc", .str "2.0"),
           ("method", .str "tools/list"), ("id", .num 1)])⟩
        "fresh-session" =
      ⟨.forbidden (create_jsonrpc_error (-32603) "Invalid Origin header"
          .null .null) 403,
       none, [], []⟩ :=
  ⟨by decide,
   origin_allowlist_amended.2 (some ⟨true, .arr [], .arr [], .arr []⟩)
     (fun _ => Json.null) [] []
     ⟨some "http://evil.example", none, "application/json",
      .parsed (.obj [("jsonrpc", .str "2.0"),
        ("method", .str "tools/list"), ("id", .num 1)])⟩
     "fresh-session" (by decide)⟩

/-- C1: a parsed line carrying an id is delivered only to the pending
entry with exactly that id, waking only that waiter; with no matching
pending entry the message is discarded leaving the state unchanged; and
for two distinct concurrent calls each pending entry ends up holding
exactly the response whose id matches it. -/
theorem correlator_delivers_exactly_matching :
    (∀ (st : CorrState) (response : List (String × Json)) (k : Json),
        k ≠ lineId response →
        dlookup (read_responses_step st response).pending_requests k
            = dlookup st.pending_requests k ∧
        dlookup (read_responses_step st response).response_events k
            = dlookup st.response_events k) ∧
    (∀ (st : CorrState) (response : List (String × Json)),
        dlookup st.pending_requests (lineId response) = none →
        read_responses_step st response = st) ∧
    (∀ (st : CorrState) (response : List (String × Json)),
        (lineId response).truthy = true →
        (dlookup st.pending_requests (lineId response)).isSome = true →
        dlookup (read_responses_step st response).pending_requests
            (lineId response) = some (some (.obj response)) ∧
        ((dlookup st.response_events (lineId response)).isSome = true →
          dlookup (read_responses_step st response).response_events
              (lineId response) = some true)) ∧
    (∀ (st : CorrState) (ra rb : List (String × Json)),
        lineId ra ≠ lineId rb →
        (lineId ra).truthy = true → (lineId rb).truthy = true →
        (dlookup st.pending_requests (lineId ra)).isSome = true →
        (dlookup st.pending_requests (lineId rb)).isSome = true →
        dlookup (read_responses_step (read_responses_step st ra)
            rb).pending_requests (lineId ra)
          = some (some (.obj ra)) ∧
        dlookup (read_responses_step (read_responses_step st ra)
            rb).pending_requests (lineId rb)
          = some (some (.obj rb))) := by
  refine ⟨?_, step_unmatched, ?_, ?_⟩
  · intro st response k h
    exact ⟨step_pending_ne st response k h, step_events_ne st response k h⟩
  · intro st response h1 h2
    exact ⟨(step_matched st response h1 h2).1,
           (step_matched st response h1 h2).2.1⟩
  · intro st ra rb hne hta htb hpa hpb
    have hpb1 :
        (dlookup (read_responses_step st ra).pending_requests
          (lineId rb)).isSome = true := by
      rw [step_pending_ne st ra (lineId rb) (fun e => hne e.symm)]
      exact hpb
    constructor
    · rw [step_pending_ne (read_responses_step st ra) rb (lineId ra) hne]
      exact (step_matched st ra hta hpa).1
    · exact (step_matched (read_responses_step st ra) rb htb hpb1).1

/-- Witness for C1: two outstanding calls "1" and "2"; delivering the
response for "1" then the response for "2" leaves each entry holding its
own response. -/
theorem correlator_delivers_exactly_matching_witness :
    (lineId [("id", Json.str "1"), ("result", .num 7)]
        ≠ lineId [("id", Json.str "2"), ("result", .num 8)]) ∧
    (dlookup (read_responses_step (read_responses_step
        ⟨[(.str "1", none), (.str "2", none)],
         [(.str "1", false), (.str "2", false)], true⟩
        [("id", Json.str "1"), ("result", .num 7)])
        [("id", Json.str "2"), ("result", .num 8)]).pending_requests
        (lineId [("id", Json.str "1"), ("result", .num 7)])
      = some (some (.obj [("id", Json.str "1"), ("result", .num 7)]))) ∧
    (dlookup (read_responses_step (read_responses_step
        ⟨[(.str "1", none), (.str "2", none)],
         [(.str "1", false), (.str "2", false)], true⟩
        [("id", Json.str "1"), ("result", .num 7)])
        [("id", Json.str "2"), ("result", .num 8)]).pending_requests
        (lineId [("id", Json.str "2"), ("result", .num 8)])
      = some (some (.obj [("id", Json.str "2"), ("result", .num 8)]))) := by
  have h := correlator_delivers_exactly_matching.2.2.2
    ⟨[(.str "1", none), (.str "2", none)],
     [(.str "1", false), (.str "2", false)], true⟩
    [("id", Json.str "1"), ("result", .num 7)]
    [("id", Json.str "2"), ("result", .num 8)]
    (by decide) (by decide) (by decide) (by decide) (by decide)
  exact ⟨by decide, h.1, h.2⟩

/-- C2: when the subprocess exits, the reader's exit path wakes every
registered waiter before the thread ends, and every call still waiting on
an unanswered pending entry then fails with the process-terminated error
instead of blocking forever. -/
theorem reader_exit_releases_all_waiters (st : CorrState) :
    (reader_exit st).running = false ∧
    (∀ j : Json, (dlookup st.response_events j).isSome = true →
        dlookup (reader_exit st).response_events j = some true) ∧
    (∀ (i : Json) (process_exited : Bool),
        dlookup st.pending_requests i = some none →
        (wait_for_response (reader_exit st) i true process_exited).1
          = WaitOutcome.terminated) := by
  refine ⟨rfl, ?_, ?_⟩
  · intro j hj
    show dlookup (st.response_events.map (fun p => (p.1, true))) j
        = some true
    rw [dlookup_map_value (fun _ => true) st.response_events j]
    cases he : dlookup st.response_events j with
    | none => rw [he] at hj; simp at hj
    | some b => simp
  · intro i pe h
    simp [wait_for_response, reader_exit, h]

/-- Witness for C2: one registered waiter "1" with an unanswered entry;
after the reader exit it is woken and resolves to `terminated`. -/
theorem reader_exit_releases_all_waiters_witness :
    ((dlookup ([(.str "1", false)] : List (Json × Bool))
        (.str "1")).isSome = true) ∧
    (dlookup ([((Json.str "1" : Json), (none : Option Json))])
        (.str "1") = some none) ∧
    (dlookup (reader_exit
        ⟨[(.str "1", none)], [(.str "1", false)], true⟩).response_events
        (.str "1") = some true) ∧
    ((wait_for_response (reader_exit
        ⟨[(.str "1", none)], [(.str "1", false)], true⟩)
        (.str "1") true false).1 = WaitOutcome.terminated) := by
  have h := reader_exit_releases_all_waiters
    ⟨[(.str "1", none)], [(.str "1", false)], true⟩
  exact ⟨by decide, by decide,
         h.2.1 (.str "1") (by decide),
         h.2.2 (.str "1") false (by decide)⟩

/-- C3: a call whose matching response never arrives within the bound
fails with the timeout outcome, and that failure path removes both the
call's pending entry and its synchronization primitive, so a later
response carrying that id is discarded with no effect on the state. -/
theorem timeout_removes_pending_entry (st : CorrState) (i : Json)
    (process_exited : Bool)
    (hp : dcount st.pending_requests i ≤ 1)
    (he : dcount st.response_events i ≤ 1) :
    (wait_for_response st i false process_exited).1 = WaitOutcome.timeout ∧
    dlookup (wait_for_response st i false
        process_exited).2.pending_requests i = none ∧
    dlookup (wait_for_response st i false
        process_exited).2.response_events i = none ∧
    (∀ response : List (String × Json),
        lineId response = i →
        read_responses_step (wait_for_response st i false
            process_exited).2 response
          = (wait_for_response st i false process_exited).2) := by
  have hpd : dlookup (derase st.pending_requests i) i = none :=
    dlookup_derase_self st.pending_requests i hp
  have hed : dlookup (derase (dinsert st.response_events i false) i) i
      = none :=
    dlookup_derase_self (dinsert st.response_events i false) i
      (dcount_dinsert_le st.response_events i false he)
  refine ⟨rfl, ?_, ?_, ?_⟩
  · simpa [wait_for_response] using hpd
  · simpa [wait_for_response] using hed
  · intro response hid
    apply step_unmatched
    rw [hid]
    simpa [wait_for_response] using hpd

/-- Witness for C3: a single outstanding call "1" that times out; the
entry and event are gone and a late response for "1" changes nothing. -/
theorem timeout_removes_pending_entry_witness :
    (dcount ([((Json.str "1" : Json), (none : Option Json))])
        (.str "1") ≤ 1) ∧
    ((wait_for_response ⟨[(.str "1", none)], [], true⟩
        (.str "1") false false).1 = WaitOutcome.timeout) ∧
    (dlookup (wait_for_response ⟨[(.str "1", none)], [], true⟩
        (.str "1") false false).2.pending_requests (.str "1") = none) ∧
    (read_responses_step
        (wait_for_response ⟨[(.str "1", none)], [], true⟩
          (.str "1") false false).2
        [("id", Json.str "1"), ("result", .num 9)]
      = (wait_for_response ⟨[(.str "1", none)], [], true⟩
          (.str "1") false false).2) := by
  have h := timeout_removes_pending_entry
    ⟨[(.str "1", none)], [], true⟩ (.str "1") false (by decide) (by decide)
  exact ⟨by decide, h.1, h.2.1,
         h.2.2.2 [("id", Json.str "1"), ("result", .num 9)] (by decide)⟩

/-- C4 counterexample: opening a second stream via `mcp_get` for a session
that already has a queue holding a pending message does NOT replace the
queue with a fresh empty one — the old queue, message included, is kept. -/
theorem second_stream_keeps_old_queue_counterexample :
    dlookup (mcp_get [("s", [Json.str "m"])] none (some "s")
        "fresh").queues "s" ≠ some [] ∧
    dlookup (mcp_get [("s", [Json.str "m"])] none (some "s")
        "fresh").queues "s" = some [Json.str "m"] := by
  refine ⟨by decide, by decide⟩

/-- C4 amended: for every session identifier there is at most one delivery
queue; opening a second stream for a session that already has one reuses
the existing queue unchanged (neither replacing nor duplicating it), a
session without a queue gets a fresh empty one, and a response generated
after the second open is enqueued exactly once on that single retained
queue. -/
theorem second_stream_reuses_queue (qs : SseQueues) (sid : String)
    (q : List Json) (m : Json) (fresh : String)
    (hsid : sid ≠ "") (hone : dcount qs sid ≤ 1) :
    dcount (mcp_get qs none (some sid) fresh).queues sid ≤ 1 ∧
    (dlookup qs sid = none →
      dlookup (mcp_get qs none (some sid) fresh).queues sid = some []) ∧
    (dlookup qs sid = some q →
      (mcp_get qs none (some sid) fresh).queues = qs ∧
      dlookup (queue_put (mcp_get qs none (some sid) fresh).queues sid m)
          sid = some (q ++ [m]) ∧
      List.count m (q ++ [m]) = List.count m q + 1) := by
  have hq : (mcp_get qs none (some sid) fresh).queues
      = ensure_queue qs sid := by
    simp [mcp_get, validate_origin, hsid]
  refine ⟨?_, ?_, ?_⟩
  · rw [hq]
    unfold ensure_queue
    cases hl : dlookup qs sid with
    | none => simp [dcount_dinsert_of_none qs sid [] hl]
    | some w => simpa [hl] using hone
  · intro hl
    rw [hq]
    simp [ensure_queue, hl, dlookup_dinsert_self]
  · intro hl
    have hq2 : ensure_queue qs sid = qs := by simp [ensure_queue, hl]
    refine ⟨hq ▸ hq2, ?_, by simp⟩
    rw [hq, hq2]
    simp [queue_put, hl, dlookup_dinsert_self]

/-- Witness for the amended C4: session "s" with a queue holding one
message; a second open keeps it, and a later response is enqueued once. -/
theorem second_stream_reuses_queue_witness :
    (("s" : String) ≠ "") ∧
    (dcount ([("s", [Json.str "m"])] : SseQueues) "s" ≤ 1) ∧
    (dlookup ([("s", [Json.str "m"])] : SseQueues) "s"
        = some [Json.str "m"]) ∧
    ((mcp_get [("s", [Json.str "m"])] none (some "s") "fresh").queues
        = [("s", [Json.str "m"])] ∧
      dlookup (queue_put
          (mcp_get [("s", [Json.str "m"])] none (some "s") "fresh").queues
          "s" (Json.str "r")) "s"
        = some ([Json.str "m"] ++ [Json.str "r"]) ∧
      List.count (Json.str "r") ([Json.str "m"] ++ [Json.str "r"])
        = List.count (Json.str "r") [Json.str "m"] + 1) :=
  ⟨by decide, by decide, by decide,
   (second_stream_reuses_queue [("s", [Json.str "m"])] "s"
     [Json.str "m"] (Json.str "r") "fresh" (by decide) (by decide)).2.2
     (by decide)⟩
